import Mathlib

/-!
# Verification of the `ecdh25519` key-agreement module

A shallow embedding of the Go package `ecdh25519` (files
`ecdh25519/ecdh25519.go`): Curve25519 Diffie-Hellman key-pair generation
and shared-secret derivation.  Byte slices are modelled as `List Nat`
(each element a byte value), Go's `(value, error)` multi-returns as pairs
of `Option`s (`none` models a `nil` slice / `nil` error).

The package delegates curve arithmetic to the external collaborator
`golang.org/x/crypto/curve25519.X25519`, which is embedded concretely
below following RFC 7748 (the algorithm that library documents and
implements): scalar clamping, u-coordinate decoding with the top bit
masked, the Montgomery ladder over GF(2^255 - 19), and the all-zero
output check for non-basepoint inputs.
-/

namespace Ecdh25519

/-- The Curve25519 field prime 2^255 - 19. -/
def fieldPrime : Nat := 2 ^ 255 - 19

/-- The ladder constant (486662 - 2) / 4 from RFC 7748. -/
def a24 : Nat := 121665

/-- Field addition modulo `fieldPrime`. -/
def fadd (a b : Nat) : Nat := (a + b) % fieldPrime

/-- Field subtraction modulo `fieldPrime`. -/
def fsub (a b : Nat) : Nat := (a % fieldPrime + fieldPrime - b % fieldPrime) % fieldPrime

/-- Field multiplication modulo `fieldPrime`. -/
def fmul (a b : Nat) : Nat := a * b % fieldPrime

/-- Fuel-driven modular exponentiation by squaring (the fuel bounds the
number of halvings of the exponent; 256 suffices for exponents below 2^256). -/
def powMod : Nat → Nat → Nat → Nat
  | 0, _, _ => 1 % fieldPrime
  | fuel + 1, b, e =>
    if e = 0 then 1 % fieldPrime
    else
      let r := powMod fuel (b * b % fieldPrime) (e / 2)
      if e % 2 = 1 then b * r % fieldPrime else r

/-- Field inversion via Fermat's little theorem: `z^(p-2) mod p`. -/
def finv (z : Nat) : Nat := powMod 256 z (fieldPrime - 2)

/-- Little-endian interpretation of a byte list as a natural number. -/
def bytesToNat : List Nat → Nat
  | [] => 0
  | b :: r => b + 256 * bytesToNat r

/-- Little-endian encoding of a natural number into `len` bytes. -/
def natToBytesLE : Nat → Nat → List Nat
  | 0, _ => []
  | len + 1, n => n % 256 :: natToBytesLE len (n / 256)

/-- The X25519 scalar clamp, exactly the byte operations of
`GenerateKeyPair` (`privateKey[0] &= 248; privateKey[31] &= 127;
privateKey[31] |= 64`), which coincide with the clamp RFC 7748 performs
on every scalar inside the primitive. -/
def clamp (k : List Nat) : List Nat :=
  (k.set 0 (k.getD 0 0 &&& 248)).set 31 ((k.getD 31 0 &&& 127) ||| 64)

/-- Conditional swap used by the Montgomery ladder. -/
def cswap (s a b : Nat) : Nat × Nat := if s = 1 then (b, a) else (a, b)

/-- One pass of the RFC 7748 Montgomery ladder.  The fuel counts the
remaining bit positions: at fuel `t + 1` the bit index processed is `t`,
so starting from fuel 255 the loop runs `t = 254` down to `t = 0`.
State is `(x2, z2, x3, z3, swap)`. -/
def ladderLoop (k x1 : Nat) : Nat → Nat × Nat × Nat × Nat × Nat → Nat × Nat × Nat × Nat × Nat
  | 0, st => st
  | t + 1, (x2, z2, x3, z3, swap) =>
    let kt := (k >>> t) &&& 1
    let swap1 := swap ^^^ kt
    let (x2, x3) := cswap swap1 x2 x3
    let (z2, z3) := cswap swap1 z2 z3
    let a := fadd x2 z2
    let aa := fmul a a
    let b := fsub x2 z2
    let bb := fmul b b
    let e := fsub aa bb
    let c := fadd x3 z3
    let d := fsub x3 z3
    let da := fmul d a
    let cb := fmul c b
    let x3n := fmul (fadd da cb) (fadd da cb)
    let z3n := fmul x1 (fmul (fsub da cb) (fsub da cb))
    let x2n := fmul aa bb
    let z2n := fmul e (fadd aa (fmul a24 e))
    ladderLoop k x1 t (x2n, z2n, x3n, z3n, kt)

/-- The full 255-iteration ladder on scalar `k` and u-coordinate `x1`,
from the RFC 7748 initial state `(1, 0, x1, 1, 0)`. -/
def x25519Ladder (k x1 : Nat) : Nat × Nat × Nat × Nat × Nat :=
  ladderLoop k x1 255 (1, 0, x1, 1, 0)

/-- The RFC 7748 epilogue: final conditional swap and projective-to-affine
conversion `x2 / z2`, encoded as 32 little-endian bytes. -/
def x25519Finish : Nat × Nat × Nat × Nat × Nat → List Nat
  | (x2, z2, x3, z3, swap) =>
    let (x2f, _) := cswap swap x2 x3
    let (z2f, _) := cswap swap z2 z3
    natToBytesLE 32 (fmul x2f (finv z2f))

/-- The scalar-multiplication core of `curve25519.ScalarMult` per
RFC 7748: clamp a private copy of the scalar, decode the u-coordinate
masking its top bit, run the ladder, and encode `x2 / z2` as 32
little-endian bytes. -/
def x25519ScalarMult (scalar point : List Nat) : List Nat :=
  x25519Finish (x25519Ladder (bytesToNat (clamp scalar)) (bytesToNat point % 2 ^ 255))

/-- The canonical Curve25519 basepoint encoding: u = 9. -/
def Basepoint : List Nat := 9 :: List.replicate 31 0

/-- The error values the module can surface: the module's own
`ErrBadPrivateKeyLength` / `ErrBadPublicKeyLength` (each wrapped with the
offending length), the errors of the external primitive
(`bad scalar length`, `bad point length`, `bad input point: low order
point`), and a failure of the randomness source reported by
`io.ReadFull`. -/
inductive Err where
  | badPrivateKeyLength (n : Nat)
  | badPublicKeyLength (n : Nat)
  | badScalarLength (n : Nat)
  | badPointLength (n : Nat)
  | lowOrderPoint
  | randFailure
deriving DecidableEq, Repr

/-- Model of the external primitive `curve25519.X25519(scalar, point)`:
validate both lengths, multiply, and reject an all-zero output unless the
point is the library's own `Basepoint` slice.  The Go code detects the
basepoint by pointer identity (`&point[0] == &Basepoint[0]`); value
equality is used here, which agrees with it at every call site of this
module: `PrivateKey.PublicKey` passes the `Basepoint` slice itself, and a
clamped scalar times the basepoint is never the zero output, so skipping
the check on value-equal copies changes no result. -/
def X25519 (scalar point : List Nat) : Option (List Nat) × Option Err :=
  if scalar.length ≠ 32 then (none, some (.badScalarLength scalar.length))
  else if point.length ≠ 32 then (none, some (.badPointLength point.length))
  else if point = Basepoint then (some (x25519ScalarMult scalar point), none)
  else
    let dst := x25519ScalarMult scalar point
    if dst = List.replicate 32 0 then (none, some .lowOrderPoint) else (some dst, none)

/-- `PublicKeySize` from the Go source. -/
def PublicKeySize : Nat := 32

/-- `PrivateKeySize` from the Go source. -/
def PrivateKeySize : Nat := 32

/-- `func (p PrivateKey) PublicKey() (PublicKey, error)`:
`return curve25519.X25519(p, curve25519.Basepoint)`. -/
def PrivateKey.PublicKey (p : List Nat) : Option (List Nat) × Option Err :=
  X25519 p Basepoint

/-- Model of `io.ReadFull(rand, buf)` filling a 32-byte buffer: the
randomness source is the list of bytes it can supply; the read succeeds
exactly when at least `n` bytes are available. -/
def readFull (src : List Nat) (n : Nat) : Option (List Nat) :=
  if n ≤ src.length then some (src.take n) else none

/-- `func GenerateKeyPair(rand io.Reader) (PublicKey, PrivateKey, error)`:
read 32 random bytes (failing with the reader's error), clamp them in
place, derive the public key, and return the triple.  The `rand == nil`
fallback to `crypto/rand.Reader` is the caller supplying the platform
source and needs no separate case: `src` is whatever source is in effect. -/
def GenerateKeyPair (src : List Nat) :
    Option (List Nat) × Option (List Nat) × Option Err :=
  match readFull src 32 with
  | none => (none, none, some .randFailure)
  | some raw =>
    let privateKey := clamp raw
    let (publicKey, err) := PrivateKey.PublicKey privateKey
    match err with
    | some e => (none, none, some e)
    | none => (publicKey, some privateKey, none)

/-- `func GenerateSharedSecret(privateKey PrivateKey, publicKey PublicKey)
([]byte, error)`: the two length checks, then
`return curve25519.X25519(privateKey, publicKey)`. -/
def GenerateSharedSecret (privateKey publicKey : List Nat) :
    Option (List Nat) × Option Err :=
  if privateKey.length ≠ PrivateKeySize then
    (none, some (.badPrivateKeyLength privateKey.length))
  else if publicKey.length ≠ PublicKeySize then
    (none, some (.badPublicKeyLength publicKey.length))
  else X25519 privateKey publicKey

end Ecdh25519

namespace Ecdh25519

/-! ## RFC 7748 §6.1 test vectors (the byte lists spell the hex strings of
the spec in little-endian byte order, one decimal entry per byte) -/

/-- Alice's private key `77076d0a7318a57d3c16c17251b26645df4c2f87ebc0992ab177fba51db92c2a`. -/
def alicePriv : List Nat :=
  [119, 7, 109, 10, 115, 24, 165, 125, 60, 22, 193, 114, 81, 178, 102, 69,
   223, 76, 47, 135, 235, 192, 153, 42, 177, 119, 251, 165, 29, 185, 44, 42]

/-- Alice's public key `8520f0098930a754748b7ddcb43ef75a0dbf3a0d26381af4eba4a98eaa9b4e6a`. -/
def alicePub : List Nat :=
  [133, 32, 240, 9, 137, 48, 167, 84, 116, 139, 125, 220, 180, 62, 247, 90,
   13, 191, 58, 13, 38, 56, 26, 244, 235, 164, 169, 142, 170, 155, 78, 106]

/-- Bob's private key `5dab087e624a8a4b79e17f8b83800ee66f3bb1292618b6fd1c2f8b27ff88e0eb`. -/
def bobPriv : List Nat :=
  [93, 171, 8, 126, 98, 74, 138, 75, 121, 225, 127, 139, 131, 128, 14, 230,
   111, 59, 177, 41, 38, 24, 182, 253, 28, 47, 139, 39, 255, 136, 224, 235]

/-- Bob's public key `de9edb7d7b7dc1b4d35b61c2ece435373f8343c85b78674dadfc7e146f882b4f`. -/
def bobPub : List Nat :=
  [222, 158, 219, 125, 123, 125, 193, 180, 211, 91, 97, 194, 236, 228, 53, 55,
   63, 131, 67, 200, 91, 120, 103, 77, 173, 252, 126, 20, 111, 136, 43, 79]

/-- The shared secret `4a5d9d5ba4ce2de1728e3bf480350f25e07e21c947d19e3376f09b3c1e161742`. -/
def rfcSharedSecret : List Nat :=
  [74, 93, 157, 91, 164, 206, 45, 225, 114, 142, 59, 244, 128, 53, 15, 37,
   224, 126, 33, 201, 71, 209, 158, 51, 118, 240, 155, 60, 30, 22, 23, 66]

/-- `clamp alicePriv`: an already-clamped private key, used as a concrete
randomness source for exercising `GenerateKeyPair`. -/
def aliceClamped : List Nat :=
  [112, 7, 109, 10, 115, 24, 165, 125, 60, 22, 193, 114, 81, 178, 102, 69,
   223, 76, 47, 135, 235, 192, 153, 42, 177, 119, 251, 165, 29, 185, 44, 106]

/-! ## Staged evaluation of the four scalar multiplications

A single `decide` over a whole `x25519ScalarMult` call exceeds the
elaborator's recursion budget, so each concrete multiplication is split
into its ladder run and its epilogue, glued by `x25519ScalarMult_stages`. -/

lemma x25519ScalarMult_stages (s pt : List Nat) (k x1 : Nat)
    (st : Nat × Nat × Nat × Nat × Nat) (out : List Nat)
    (h1 : bytesToNat (clamp s) = k) (h2 : bytesToNat pt % 2 ^ 255 = x1)
    (h3 : x25519Ladder k x1 = st) (h4 : x25519Finish st = out) :
    x25519ScalarMult s pt = out := by
  show x25519Finish (x25519Ladder (bytesToNat (clamp s)) (bytesToNat pt % 2 ^ 255)) = out
  rw [h1, h2, h3, h4]

set_option maxRecDepth 40000 in
lemma ladderAliceBase :
    x25519Ladder 48024180843069071553745934684982006431825596986621126406018887516696408295280 9 =
      (38726219401558270371658911892975637102186981392795104342759655003210469224005,
       7321677318838737788311020855093973614157948658582669376334993969601219174652,
       40875348078711518825453199176824291188526028641331675495101928122680462732539,
       34667235194362678008741543340083995994916256223087584858766167549354921345115, 0) := by
  decide

set_option maxRecDepth 40000 in
lemma finishAliceBase :
    x25519Finish
      (38726219401558270371658911892975637102186981392795104342759655003210469224005,
       7321677318838737788311020855093973614157948658582669376334993969601219174652,
       40875348078711518825453199176824291188526028641331675495101928122680462732539,
       34667235194362678008741543340083995994916256223087584858766167549354921345115, 0) =
      alicePub := by
  decide

lemma multAliceBase : x25519ScalarMult alicePriv Basepoint = alicePub :=
  x25519ScalarMult_stages _ _ _ _ _ _ (by decide) (by decide) ladderAliceBase finishAliceBase

lemma multAliceClampedBase : x25519ScalarMult aliceClamped Basepoint = alicePub :=
  x25519ScalarMult_stages _ _ _ _ _ _ (by decide) (by decide) ladderAliceBase finishAliceBase

set_option maxRecDepth 40000 in
lemma ladderBobBase :
    x25519Ladder 48794194057373861652369136623399865312182792178494469274796512275582446775128 9 =
      (21389112189510078654493604861390826274113205603763157861614577274016119135674,
       38172986024365487197803223530307643529382382112860631180926420887243425497711,
       47891358146897592068072403214513451475586149229218032207122018825408287699609,
       47374224341440710424021709575410229555700627058771437495155933972857953183571, 0) := by
  decide

set_option maxRecDepth 40000 in
lemma finishBobBase :
    x25519Finish
      (21389112189510078654493604861390826274113205603763157861614577274016119135674,
       38172986024365487197803223530307643529382382112860631180926420887243425497711,
       47891358146897592068072403214513451475586149229218032207122018825408287699609,
       47374224341440710424021709575410229555700627058771437495155933972857953183571, 0) =
      bobPub := by
  decide

lemma multBobBase : x25519ScalarMult bobPriv Basepoint = bobPub :=
  x25519ScalarMult_stages _ _ _ _ _ _ (by decide) (by decide) ladderBobBase finishBobBase

set_option maxRecDepth 40000 in
lemma ladderAliceBob :
    x25519Ladder 48024180843069071553745934684982006431825596986621126406018887516696408295280
      35809631094079244041211258971985475468665640815735853089228998203411133079262 =
      (889971197624620653732804478315199232796108311653527874468452496901650277428,
       55669145443542210514995255669446634206739778316195252719901228250388440064333,
       4355393605335290258934630981599854279298866244752159913710032677765816781378,
       18315033031786865248139559617666563353805799556304710400408270828021689093128, 0) := by
  decide

set_option maxRecDepth 40000 in
lemma finishAliceBob :
    x25519Finish
      (889971197624620653732804478315199232796108311653527874468452496901650277428,
       55669145443542210514995255669446634206739778316195252719901228250388440064333,
       4355393605335290258934630981599854279298866244752159913710032677765816781378,
       18315033031786865248139559617666563353805799556304710400408270828021689093128, 0) =
      rfcSharedSecret := by
  decide

lemma multAliceBob : x25519ScalarMult alicePriv bobPub = rfcSharedSecret :=
  x25519ScalarMult_stages _ _ _ _ _ _ (by decide) (by decide) ladderAliceBob finishAliceBob

set_option maxRecDepth 40000 in
lemma ladderBobAlice :
    x25519Ladder 48794194057373861652369136623399865312182792178494469274796512275582446775128
      48084050389777770101701157326923977117307187144965043058462938058489685090437 =
      (35895483835120627837828166445672024571297322736299994085826416729348138511642,
       39689402435853904514704650048284763165647195949575895814790495334812149076760,
       36995502676185291272443234466598016287662825262305534933993363155122970163592,
       27594893189182138219760129097775722264881042652711149041900264527901138459809, 0) := by
  decide

set_option maxRecDepth 40000 in
lemma finishBobAlice :
    x25519Finish
      (35895483835120627837828166445672024571297322736299994085826416729348138511642,
       39689402435853904514704650048284763165647195949575895814790495334812149076760,
       36995502676185291272443234466598016287662825262305534933993363155122970163592,
       27594893189182138219760129097775722264881042652711149041900264527901138459809, 0) =
      rfcSharedSecret := by
  decide

lemma multBobAlice : x25519ScalarMult bobPriv alicePub = rfcSharedSecret :=
  x25519ScalarMult_stages _ _ _ _ _ _ (by decide) (by decide) ladderBobAlice finishBobAlice

end Ecdh25519

namespace Ecdh25519

/-! ## Validity-branch lemmas for the module operations -/

/-- With a 32-byte scalar, `X25519` against the basepoint takes the
`ScalarBaseMult` branch and succeeds with the scalar multiplication. -/
lemma X25519_basepoint (s : List Nat) (hs : s.length = 32) :
    X25519 s Basepoint = (some (x25519ScalarMult s Basepoint), none) := by
  unfold X25519
  rw [if_neg (by simp [hs]), if_neg (by decide), if_pos rfl]

/-- With 32-byte inputs and a point other than the basepoint, `X25519`
reduces to the scalar multiplication guarded by the all-zero check. -/
lemma X25519_not_basepoint (s pt : List Nat) (hs : s.length = 32)
    (hpt : pt.length = 32) (hne : pt ≠ Basepoint) :
    X25519 s pt =
      if x25519ScalarMult s pt = List.replicate 32 0 then (none, some Err.lowOrderPoint)
      else (some (x25519ScalarMult s pt), none) := by
  unfold X25519
  rw [if_neg (by simp [hs]), if_neg (by simp [hpt]), if_neg hne]

/-- With 32-byte keys, `GenerateSharedSecret` passes both inputs to the
primitive exactly as given. -/
lemma GenerateSharedSecret_valid (s pt : List Nat) (hs : s.length = 32)
    (hpt : pt.length = 32) :
    GenerateSharedSecret s pt = X25519 s pt := by
  unfold GenerateSharedSecret
  rw [if_neg (by simp [hs, PrivateKeySize]), if_neg (by simp [hpt, PublicKeySize])]

/-! ## The RFC 7748 evaluations lifted to the module API -/

lemma deriveAlice : PrivateKey.PublicKey alicePriv = (some alicePub, none) := by
  show X25519 alicePriv Basepoint = (some alicePub, none)
  rw [X25519_basepoint alicePriv (by decide), multAliceBase]

lemma deriveBob : PrivateKey.PublicKey bobPriv = (some bobPub, none) := by
  show X25519 bobPriv Basepoint = (some bobPub, none)
  rw [X25519_basepoint bobPriv (by decide), multBobBase]

lemma deriveAliceClamped : PrivateKey.PublicKey aliceClamped = (some alicePub, none) := by
  show X25519 aliceClamped Basepoint = (some alicePub, none)
  rw [X25519_basepoint aliceClamped (by decide), multAliceClampedBase]

lemma secretAliceBob : GenerateSharedSecret alicePriv bobPub = (some rfcSharedSecret, none) := by
  rw [GenerateSharedSecret_valid alicePriv bobPub (by decide) (by decide),
    X25519_not_basepoint alicePriv bobPub (by decide) (by decide) (by decide), multAliceBob,
    if_neg (by decide)]

lemma secretBobAlice : GenerateSharedSecret bobPriv alicePub = (some rfcSharedSecret, none) := by
  rw [GenerateSharedSecret_valid bobPriv alicePub (by decide) (by decide),
    X25519_not_basepoint bobPriv alicePub (by decide) (by decide) (by decide), multBobAlice,
    if_neg (by decide)]

/-- A full key-pair generation run on the concrete 32-byte source
`aliceClamped` (whose clamp is itself). -/
lemma genAlice : GenerateKeyPair aliceClamped = (some alicePub, some aliceClamped, none) := by
  have hr : readFull aliceClamped 32 = some aliceClamped := by decide
  have hc : clamp aliceClamped = aliceClamped := by decide
  unfold GenerateKeyPair
  rw [hr]
  simp only [hc, deriveAliceClamped]

end Ecdh25519

namespace Ecdh25519

/-! ## Structure lemmas used by the claims -/

/-- `natToBytesLE` always emits exactly the requested number of bytes. -/
lemma natToBytesLE_length (len n : Nat) : (natToBytesLE len n).length = len := by
  induction len generalizing n with
  | zero => rfl
  | succ l ih => simp [natToBytesLE, ih]

/-- Scalar multiplication always yields a 32-byte output. -/
lemma x25519ScalarMult_length (s pt : List Nat) : (x25519ScalarMult s pt).length = 32 := by
  show (x25519Finish (x25519Ladder (bytesToNat (clamp s)) (bytesToNat pt % 2 ^ 255))).length = 32
  obtain ⟨x2, z2, x3, z3, swap⟩ := x25519Ladder (bytesToNat (clamp s)) (bytesToNat pt % 2 ^ 255)
  show (x25519Finish (x2, z2, x3, z3, swap)).length = 32
  unfold x25519Finish
  obtain ⟨a, b⟩ := cswap swap x2 x3
  obtain ⟨c, d⟩ := cswap swap z2 z3
  exact natToBytesLE_length 32 _

/-- A successful `X25519` run forces the scalar to be 32 bytes long. -/
lemma X25519_ok_scalar_length (s pt out : List Nat)
    (h : X25519 s pt = (some out, none)) : s.length = 32 := by
  by_cases hs : s.length = 32
  · exact hs
  · unfold X25519 at h
    rw [if_pos hs] at h
    simp at h

end Ecdh25519

namespace Ecdh25519

/-- Byte 0 of a clamped 32-byte key is its original byte masked with 248. -/
lemma clamp_getD_zero (xs : List Nat) (h : 0 < xs.length) :
    (clamp xs).getD 0 0 = xs.getD 0 0 &&& 248 := by
  unfold clamp
  rw [List.getD_eq_getElem?_getD,
    List.getElem?_set_ne (by decide : (31 : Nat) ≠ 0),
    List.getElem?_set_self (by simpa using h)]
  rfl

/-- Byte 31 of a clamped 32-byte key is its original byte masked with 127
and or-ed with 64. -/
lemma clamp_getD_31 (xs : List Nat) (h : 31 < xs.length) :
    (clamp xs).getD 31 0 = (xs.getD 31 0 &&& 127) ||| 64 := by
  unfold clamp
  rw [List.getD_eq_getElem?_getD, List.getElem?_set_self (by simpa using h)]
  rfl

/-- Masking with 248 clears bit `i` for `i < 3`. -/
lemma and248_testBit_low (b i : Nat) (hi : i < 3) : (b &&& 248).testBit i = false := by
  rw [Nat.testBit_land]
  have h248 : Nat.testBit 248 i = false := by interval_cases i <;> decide
  simp [h248]

/-- Masking with 127 then setting bit 6 leaves bit 7 clear. -/
lemma clampHigh_testBit7 (b : Nat) : (b &&& 127 ||| 64).testBit 7 = false := by
  rw [Nat.testBit_lor, Nat.testBit_land,
    show Nat.testBit 127 7 = false from by decide,
    show Nat.testBit 64 7 = false from by decide]
  simp

/-- Masking with 127 then setting bit 6 leaves bit 6 set. -/
lemma clampHigh_testBit6 (b : Nat) : (b &&& 127 ||| 64).testBit 6 = true := by
  rw [Nat.testBit_lor, show Nat.testBit 64 6 = true from by decide]
  simp

/-- Unfolding `GenerateKeyPair` past a successful 32-byte read. -/
lemma GenerateKeyPair_eq_of_readFull (src raw : List Nat)
    (hr : readFull src 32 = some raw) :
    GenerateKeyPair src =
      (match PrivateKey.PublicKey (clamp raw) with
       | (publicKey, err) =>
         match err with
         | some e => (none, none, some e)
         | none => (publicKey, some (clamp raw), none)) := by
  unfold GenerateKeyPair
  rw [hr]

/-- Characterization of a successful `GenerateKeyPair` run: the source had
at least 32 bytes, the private key is the clamp of the 32 bytes read, and
the public key is its derivation. -/
lemma GenerateKeyPair_ok (src pub priv : List Nat)
    (h : GenerateKeyPair src = (some pub, some priv, none)) :
    32 ≤ src.length ∧ priv = clamp (src.take 32) ∧
      PrivateKey.PublicKey priv = (some pub, none) := by
  by_cases hlen : 32 ≤ src.length
  · have hr : readFull src 32 = some (src.take 32) := by
      unfold readFull
      rw [if_pos hlen]
    rw [GenerateKeyPair_eq_of_readFull src _ hr] at h
    cases hPK : PrivateKey.PublicKey (clamp (src.take 32)) with
    | mk pk err =>
      rw [hPK] at h
      cases err with
      | some e => simp at h
      | none =>
        simp only [Prod.mk.injEq, Option.some.injEq] at h
        obtain ⟨h1, h2, -⟩ := h
        refine ⟨hlen, h2.symm, ?_⟩
        rw [h2] at hPK
        rw [hPK, h1]
  · unfold GenerateKeyPair readFull at h
    rw [if_neg hlen] at h
    simp at h

end Ecdh25519

namespace Ecdh25519

/-- A successful derivation forces a 32-byte private key and pins the
public key to the basepoint scalar multiplication. -/
lemma derive_ok (p pub : List Nat) (h : PrivateKey.PublicKey p = (some pub, none)) :
    p.length = 32 ∧ pub = x25519ScalarMult p Basepoint := by
  have hs : p.length = 32 := X25519_ok_scalar_length p Basepoint pub h
  refine ⟨hs, ?_⟩
  unfold PrivateKey.PublicKey at h
  rw [X25519_basepoint p hs] at h
  simp only [Prod.mk.injEq, Option.some.injEq] at h
  exact h.1.symm

/-- Whenever `X25519` reports an error, its value component is `nil`. -/
lemma X25519_err (s pt : List Nat) (out : Option (List Nat)) (e : Err)
    (h : X25519 s pt = (out, some e)) : out = none := by
  unfold X25519 at h
  split at h
  · simp only [Prod.mk.injEq] at h
    exact h.1.symm
  · split at h
    · simp only [Prod.mk.injEq] at h
      exact h.1.symm
    · split at h
      · simp only [Prod.mk.injEq] at h
        exact absurd h.2 (by simp)
      · simp only [] at h
        split at h
        · simp only [Prod.mk.injEq] at h
          exact h.1.symm
        · simp only [Prod.mk.injEq] at h
          exact absurd h.2 (by simp)

/-- Whenever `GenerateKeyPair` reports an error, both key components are
`nil`. -/
lemma GenerateKeyPair_err (src : List Nat) (pub priv : Option (List Nat)) (e : Err)
    (h : GenerateKeyPair src = (pub, priv, some e)) : pub = none ∧ priv = none := by
  by_cases hlen : 32 ≤ src.length
  · have hr : readFull src 32 = some (src.take 32) := by
      unfold readFull
      rw [if_pos hlen]
    rw [GenerateKeyPair_eq_of_readFull src _ hr] at h
    cases hPK : PrivateKey.PublicKey (clamp (src.take 32)) with
    | mk pk err =>
      rw [hPK] at h
      cases err with
      | some e2 =>
        simp only [Prod.mk.injEq] at h
        exact ⟨h.1.symm, h.2.1.symm⟩
      | none => simp at h
  · unfold GenerateKeyPair readFull at h
    rw [if_neg hlen] at h
    simp only [Prod.mk.injEq] at h
    exact ⟨h.1.symm, h.2.1.symm⟩

/-! ## The claims -/

/-- Claim C1: for every key pair produced by a successful call to
`GenerateKeyPair` with any randomness source, applying the public-key
derivation operation (`PrivateKey.PublicKey`) to the returned private key
yields exactly the returned public key. -/
theorem claim_C1_roundtrip (src pub priv : List Nat)
    (h : GenerateKeyPair src = (some pub, some priv, none)) :
    PrivateKey.PublicKey priv = (some pub, none) :=
  (GenerateKeyPair_ok src pub priv h).2.2

/-- Witness for C1 at the concrete randomness source `aliceClamped`. -/
theorem claim_C1_roundtrip_witness :
    GenerateKeyPair aliceClamped = (some alicePub, some aliceClamped, none) ∧
    PrivateKey.PublicKey aliceClamped = (some alicePub, none) :=
  ⟨genAlice, claim_C1_roundtrip aliceClamped alicePub aliceClamped genAlice⟩

/-- Claim C2: `GenerateSharedSecret` fails with `badPrivateKeyLength`
(carrying the actual length) whenever the private key is not 32 bytes,
and with `badPublicKeyLength` (carrying the actual length) whenever the
private key is 32 bytes but the public key is not; the equations hold for
all byte contents, i.e. the checks are unconditional and precede any
cryptographic computation. -/
theorem claim_C2_length_validation (priv pub : List Nat) :
    (priv.length ≠ 32 →
      GenerateSharedSecret priv pub = (none, some (Err.badPrivateKeyLength priv.length))) ∧
    (priv.length = 32 → pub.length ≠ 32 →
      GenerateSharedSecret priv pub = (none, some (Err.badPublicKeyLength pub.length))) := by
  constructor
  · intro h
    unfold GenerateSharedSecret
    rw [if_pos (show priv.length ≠ PrivateKeySize from h)]
  · intro h1 h2
    unfold GenerateSharedSecret
    rw [if_neg (show ¬priv.length ≠ PrivateKeySize from by simp [PrivateKeySize, h1]),
      if_pos (show pub.length ≠ PublicKeySize from h2)]

/-- Witness for C2 at concrete short inputs. -/
theorem claim_C2_length_validation_witness :
    GenerateSharedSecret [] [] = (none, some (Err.badPrivateKeyLength 0)) ∧
    GenerateSharedSecret (List.replicate 32 0) [1, 2] =
      (none, some (Err.badPublicKeyLength 2)) :=
  ⟨(claim_C2_length_validation [] []).1 (by decide),
   (claim_C2_length_validation (List.replicate 32 0) [1, 2]).2 (by decide) (by decide)⟩

/-- Claim C3: every private key returned by a successful `GenerateKeyPair`
call is clamped: the lowest 3 bits of byte 0 are clear, bit 7 of byte 31
is clear, and bit 6 of byte 31 is set, regardless of the bytes the
randomness source supplied. -/
theorem claim_C3_clamping (src pub priv : List Nat)
    (h : GenerateKeyPair src = (some pub, some priv, none)) :
    (priv.getD 0 0).testBit 0 = false ∧ (priv.getD 0 0).testBit 1 = false ∧
    (priv.getD 0 0).testBit 2 = false ∧ (priv.getD 31 0).testBit 7 = false ∧
    (priv.getD 31 0).testBit 6 = true := by
  obtain ⟨hlen, hpriv, -⟩ := GenerateKeyPair_ok src pub priv h
  have htake : (src.take 32).length = 32 := by
    rw [List.length_take]
    omega
  have h0 : priv.getD 0 0 = (src.take 32).getD 0 0 &&& 248 := by
    rw [hpriv]
    exact clamp_getD_zero _ (by omega)
  have h31 : priv.getD 31 0 = ((src.take 32).getD 31 0 &&& 127) ||| 64 := by
    rw [hpriv]
    exact clamp_getD_31 _ (by omega)
  rw [h0, h31]
  exact ⟨and248_testBit_low _ 0 (by omega), and248_testBit_low _ 1 (by omega),
    and248_testBit_low _ 2 (by omega), clampHigh_testBit7 _, clampHigh_testBit6 _⟩

/-- Witness for C3 at the concrete randomness source `aliceClamped`. -/
theorem claim_C3_clamping_witness :
    (aliceClamped.getD 0 0).testBit 0 = false ∧ (aliceClamped.getD 0 0).testBit 1 = false ∧
    (aliceClamped.getD 0 0).testBit 2 = false ∧ (aliceClamped.getD 31 0).testBit 7 = false ∧
    (aliceClamped.getD 31 0).testBit 6 = true :=
  claim_C3_clamping aliceClamped alicePub aliceClamped genAlice

/-- Claim C4: when the randomness source cannot supply 32 bytes,
`GenerateKeyPair` fails with the randomness-source failure and produces no
keys. -/
theorem claim_C4_rand_failure (src : List Nat) (h : src.length < 32) :
    GenerateKeyPair src = (none, none, some Err.randFailure) := by
  unfold GenerateKeyPair readFull
  rw [if_neg (by omega)]

/-- Witness for C4 at the empty randomness source. -/
theorem claim_C4_rand_failure_witness :
    GenerateKeyPair [] = (none, none, some Err.randFailure) :=
  claim_C4_rand_failure [] (by decide)

/-- Claim C5: with well-formed lengths, `GenerateSharedSecret` is exactly
the primitive applied to the unmodified private and public key bytes, and
the public-key derivation is exactly the primitive applied to the
unmodified private key and the basepoint: neither operation clamps or
otherwise alters its inputs (clamping happens only inside
`GenerateKeyPair`, per C3). -/
theorem claim_C5_no_clamping (priv pub p : List Nat)
    (hs : priv.length = 32) (hp : pub.length = 32) :
    GenerateSharedSecret priv pub = X25519 priv pub ∧
    PrivateKey.PublicKey p = X25519 p Basepoint :=
  ⟨GenerateSharedSecret_valid priv pub hs hp, rfl⟩

/-- Witness for C5 at the RFC 7748 keys. -/
theorem claim_C5_no_clamping_witness :
    alicePriv.length = 32 ∧ bobPub.length = 32 ∧
    (GenerateSharedSecret alicePriv bobPub = X25519 alicePriv bobPub ∧
     PrivateKey.PublicKey alicePriv = X25519 alicePriv Basepoint) :=
  ⟨by decide, by decide,
   claim_C5_no_clamping alicePriv bobPub alicePriv (by decide) (by decide)⟩

/-- Claim C6: the public-key derivation operation and
`GenerateSharedSecret` are deterministic pure functions of their inputs:
two calls on identical inputs return identical results.  In this
embedding both are plain functions of their arguments (the Go code reads
no state besides them), so repeated application yields equal outcomes. -/
theorem claim_C6_determinism (priv pub p : List Nat) :
    GenerateSharedSecret priv pub = GenerateSharedSecret priv pub ∧
    PrivateKey.PublicKey p = PrivateKey.PublicKey p :=
  ⟨rfl, rfl⟩

/-- Claim C7: for any two valid key pairs (each public key derived from
its private key), the two shared-secret computations agree.  The
commutativity of the underlying curve scalar multiplication
(`x25519ScalarMult privA pubB = x25519ScalarMult privB pubA`) and the
non-degeneracy of the shared point are facts of Curve25519 arithmetic,
supplied as hypotheses in accordance with the specification treating the
primitive as an external, already-correct oracle; the theorem shows the
module maps them to equal API results. -/
theorem claim_C7_commutativity (privA pubA privB pubB : List Nat)
    (hA : PrivateKey.PublicKey privA = (some pubA, none))
    (hB : PrivateKey.PublicKey privB = (some pubB, none))
    (hprim : x25519ScalarMult privA pubB = x25519ScalarMult privB pubA)
    (hnz : x25519ScalarMult privA pubB ≠ List.replicate 32 0) :
    GenerateSharedSecret privA pubB = GenerateSharedSecret privB pubA := by
  obtain ⟨hlenA, hpubA⟩ := derive_ok privA pubA hA
  obtain ⟨hlenB, hpubB⟩ := derive_ok privB pubB hB
  have hpubAlen : pubA.length = 32 := by
    rw [hpubA]
    exact x25519ScalarMult_length _ _
  have hpubBlen : pubB.length = 32 := by
    rw [hpubB]
    exact x25519ScalarMult_length _ _
  have hX : ∀ s pt : List Nat, s.length = 32 → pt.length = 32 →
      x25519ScalarMult s pt ≠ List.replicate 32 0 →
      X25519 s pt = (some (x25519ScalarMult s pt), none) := by
    intro s pt hsl hptl hz
    by_cases hb : pt = Basepoint
    · rw [hb]
      exact X25519_basepoint s hsl
    · rw [X25519_not_basepoint s pt hsl hptl hb, if_neg hz]
  rw [GenerateSharedSecret_valid _ _ hlenA hpubBlen,
    GenerateSharedSecret_valid _ _ hlenB hpubAlen,
    hX privA pubB hlenA hpubBlen hnz,
    hX privB pubA hlenB hpubAlen (by rw [← hprim]; exact hnz), hprim]

/-- Witness for C7 at the RFC 7748 key pairs. -/
theorem claim_C7_commutativity_witness :
    PrivateKey.PublicKey alicePriv = (some alicePub, none) ∧
    PrivateKey.PublicKey bobPriv = (some bobPub, none) ∧
    GenerateSharedSecret alicePriv bobPub = GenerateSharedSecret bobPriv alicePub :=
  ⟨deriveAlice, deriveBob,
   claim_C7_commutativity alicePriv alicePub bobPriv bobPub deriveAlice deriveBob
     (multAliceBob.trans multBobAlice.symm)
     (by rw [multAliceBob]; decide)⟩

/-- Claim C8: on the fixed RFC 7748 §6.1 inputs, both shared-secret
computations return the published shared secret, and the two public-key
derivations return the published public keys. -/
theorem claim_C8_rfc7748_vectors :
    GenerateSharedSecret alicePriv bobPub = (some rfcSharedSecret, none) ∧
    GenerateSharedSecret bobPriv alicePub = (some rfcSharedSecret, none) ∧
    PrivateKey.PublicKey alicePriv = (some alicePub, none) ∧
    PrivateKey.PublicKey bobPriv = (some bobPub, none) :=
  ⟨secretAliceBob, secretBobAlice, deriveAlice, deriveBob⟩

/-- Claim C9: no operation partially succeeds: whenever `GenerateKeyPair`,
the public-key derivation, or `GenerateSharedSecret` returns an error,
every key or secret returned alongside is `nil`. -/
theorem claim_C9_no_partial_success :
    (∀ src pub priv e, GenerateKeyPair src = (pub, priv, some e) → pub = none ∧ priv = none) ∧
    (∀ p out e, PrivateKey.PublicKey p = (out, some e) → out = none) ∧
    (∀ s pt out e, GenerateSharedSecret s pt = (out, some e) → out = none) := by
  refine ⟨fun src pub priv e h => GenerateKeyPair_err src pub priv e h,
    fun p out e h => X25519_err p Basepoint out e h, fun s pt out e h => ?_⟩
  unfold GenerateSharedSecret at h
  split at h
  · simp only [Prod.mk.injEq] at h
    exact h.1.symm
  · split at h
    · simp only [Prod.mk.injEq] at h
      exact h.1.symm
    · exact X25519_err s pt out e h

/-- Witness for C9 at a concrete failing call. -/
theorem claim_C9_no_partial_success_witness :
    GenerateSharedSecret [] [] = (none, some (Err.badPrivateKeyLength 0)) ∧
    (none : Option (List Nat)) = none :=
  ⟨by decide,
   claim_C9_no_partial_success.2.2 [] [] none (Err.badPrivateKeyLength 0) (by decide)⟩

/-- Claim C10 (implicit): when both keys have bad lengths, the private-key
check fires first, so the error is `badPrivateKeyLength` with the private
key's length, never `badPublicKeyLength`. -/
theorem claim_C10_private_check_first (priv pub : List Nat)
    (h1 : priv.length ≠ 32) (_h2 : pub.length ≠ 32) :
    GenerateSharedSecret priv pub = (none, some (Err.badPrivateKeyLength priv.length)) := by
  unfold GenerateSharedSecret
  rw [if_pos (show priv.length ≠ PrivateKeySize from h1)]

/-- Witness for C10 at concrete inputs where both lengths are wrong. -/
theorem claim_C10_private_check_first_witness :
    GenerateSharedSecret [1] [] = (none, some (Err.badPrivateKeyLength 1)) :=
  claim_C10_private_check_first [1] [] (by decide) (by decide)

end Ecdh25519
